import Mathlib

/-! Periodic table: grid layout, rendering, filters and keyboard navigation.

A shallow embedding of `script.js`.  JavaScript numbers that hold integers are
`Int`, with every arithmetic result rounded to the nearest double; strings are
lists of characters; `null` is `none`; a thrown DOM exception is an explicit
error value; and the DOM state the handlers read and write (the grid's
children, each cell's attributes and class list, the two form controls) is an
explicit record passed from handler to handler.  The Unicode case mapping behind
`toLowerCase()` is a parameter of every definition that calls it.
-/

namespace PeriodicTable

/-! ## Numbers -/

/-- The spacing of the doubles around a magnitude `m` above `2^53`: the power
of two `ulp` with `2^52 * ulp ≤ m < 2^53 * ulp`, found by doubling. -/
def ulpSearch : Nat → Nat → Nat → Nat
  | 0, ulp, _ => ulp
  | fuel + 1, ulp, m =>
    if m < 9007199254740992 * ulp then ulp else ulpSearch fuel (2 * ulp) m

/-- The double nearest to an integer, ties to the even significand: integers up
to `2^53 = 9007199254740992` in magnitude are doubles themselves, larger ones
are rounded to a multiple of the spacing.  (Finite range: the 1024 doublings
cover every finite double.) -/
def roundToDouble (n : Int) : Int :=
  if -9007199254740992 ≤ n ∧ n ≤ 9007199254740992 then n
  else
    let m := n.natAbs
    let ulp := ulpSearch 1024 1 m
    let q := m / ulp
    let r := m % ulp
    let rounded :=
      if 2 * r < ulp ∨ (2 * r = ulp ∧ q % 2 = 0) then q * ulp else (q + 1) * ulp
    if n < 0 then -(rounded : Int) else (rounded : Int)

/-- The operator `+` on integer-valued numbers: the exact sum, rounded. -/
def numAdd (a b : Int) : Int := roundToDouble (a + b)

/-- The operator `-` on integer-valued numbers: the exact difference, rounded. -/
def numSub (a b : Int) : Int := roundToDouble (a - b)

/-- The operator `*` on integer-valued numbers: the exact product, rounded. -/
def numMul (a b : Int) : Int := roundToDouble (a * b)

/-! ## Grid layout engine -/

/-- The function `calculateGridPosition(period, group)`: the two breakout rows
are tested first and use the group unchecked, the main body is guarded by both
ranges, everything else is `null`. -/
def calculateGridPosition (period group : Int) : Option Int :=
  if period = 8 then
    some (numAdd (numMul 7 18) (numSub group 1))
  else if period = 9 then
    some (numAdd (numMul 8 18) (numSub group 1))
  else if period ≥ 1 ∧ period ≤ 7 ∧ group ≥ 1 ∧ group ≤ 18 then
    some (numAdd (numMul (numSub period 1) 18) (numSub group 1))
  else
    none

/-- Row index of a linear cell index in the 18-column grid. -/
def gridRow (index : Int) : Int := index / 18

/-- Column index (from 0) of a linear cell index in the 18-column grid. -/
def gridColumn (index : Int) : Int := index % 18

/-! ## Strings and class lists -/

/-- A JavaScript string, as its list of characters. -/
abbrev JSString := List Char

/-- The characters `String.prototype.trim` strips: ECMAScript WhiteSpace and
LineTerminator code points. -/
def isWhiteSpace (c : Char) : Bool :=
  let n := c.toNat
  n = 0x09 || n = 0x0A || n = 0x0B || n = 0x0C || n = 0x0D || n = 0x20 || n = 0xA0 ||
    n = 0x1680 || (0x2000 ≤ n && n ≤ 0x200A) || n = 0x2028 || n = 0x2029 ||
    n = 0x202F || n = 0x205F || n = 0x3000 || n = 0xFEFF

/-- The method `trim()`: white space removed at both ends. -/
def trim (s : JSString) : JSString :=
  ((s.dropWhile isWhiteSpace).reverse.dropWhile isWhiteSpace).reverse

/-- The case mapping used on the sample data: `toLowerCase()` as it acts on
strings of ASCII characters.  The handlers take the case mapping as a
parameter, so what is proved of them holds for the full Unicode mapping too. -/
def asciiToLowerCase (s : JSString) : JSString := s.map Char.toLower

/-- The method `s.includes(t)`: `t` occurs in `s` as a contiguous substring. -/
def includes (s t : JSString) : Bool := decide (t <:+: s)

/-- The string a non-negative integer below `10^21` turns into when stored in
an attribute: its decimal digits.  (From `10^21` on the conversion switches to
exponent form, which this definition does not follow.) -/
def numberToString (n : Nat) : JSString := Nat.toDigits 10 n

/-- The exceptions `classList.add` throws. -/
inductive DOMError where
  | syntaxError
  | invalidCharacterError
deriving DecidableEq, Repr

/-- ASCII whitespace as the DOM defines it: tab, line feed, form feed, carriage
return, space. -/
def isAsciiWhitespace (c : Char) : Bool :=
  let n := c.toNat
  n = 0x09 || n = 0x0A || n = 0x0C || n = 0x0D || n = 0x20

/-- The check `classList.add` makes on one token: the empty string is a
`SyntaxError`, a token containing ASCII whitespace an `InvalidCharacterError`. -/
def validateToken (token : JSString) : Except DOMError Unit :=
  if token = [] then
    Except.error DOMError.syntaxError
  else if token.any isAsciiWhitespace then
    Except.error DOMError.invalidCharacterError
  else
    Except.ok ()

/-- The first exception among the tokens of one `classList.add` call, if any. -/
def validateTokens : List JSString → Except DOMError Unit
  | [] => Except.ok ()
  | token :: rest =>
    match validateToken token with
    | Except.error e => Except.error e
    | Except.ok _ => validateTokens rest

/-- One valid token added to a class list: appended unless present. -/
def classListAdd (classList : List JSString) (token : JSString) : List JSString :=
  if token ∈ classList then classList else classList ++ [token]

/-- The call `classList.add(token, ...)`: every token is checked, then each is
appended unless present. -/
def classListAddAll (classList : List JSString) (tokens : List JSString) :
    Except DOMError (List JSString) :=
  match validateTokens tokens with
  | Except.error e => Except.error e
  | Except.ok _ => Except.ok (tokens.foldl classListAdd classList)

/-- The call `classList.remove(token)`: every occurrence of the token goes. -/
def classListRemove (classList : List JSString) (token : JSString) : List JSString :=
  classList.filter (fun c => decide (c ≠ token))

/-! ## Element records and rendered cells -/

/-- The `position` object of an element record. -/
structure Position where
  period : Int
  group : Int
deriving DecidableEq, Repr

/-- One entry of `elementsData`. -/
structure ElementRecord where
  atomicNumber : Nat
  symbol : JSString
  name : JSString
  atomicMass : JSString
  category : JSString
  electronConfig : JSString
  phase : JSString
  discovered : JSString
  position : Position
deriving DecidableEq, Repr

/-- The `div` built by `createElementDiv`: the four `data-` attributes the
filters read, the class list they write, and the record its click and key
listeners pass to `openModal`.  Its `innerHTML` shows the number, symbol and
name; for a symbol and name without `<` that markup is three text-only `div`s,
none of class `element`, which no handler reads. -/
structure ElementDiv where
  dataAtomicNumber : JSString
  dataSymbol : JSString
  dataName : JSString
  dataCategory : JSString
  classList : List JSString
  element : ElementRecord
deriving DecidableEq, Repr

/-- The function `createElementDiv(element)`: `classList.add('element',
element.category)` comes first and throws on a category that is no class
token; then the symbol is stored as is, the name lowercased, the number as a
string. -/
def createElementDiv (toLowerCase : JSString → JSString) (element : ElementRecord) :
    Except DOMError ElementDiv :=
  match classListAddAll [] ["element".toList, element.category] with
  | Except.error e => Except.error e
  | Except.ok classList =>
    Except.ok
      { dataAtomicNumber := numberToString element.atomicNumber
        dataSymbol := element.symbol
        dataName := toLowerCase element.name
        dataCategory := element.category
        classList := classList
        element := element }

/-- A child of the `periodicTable` container: a `div.empty-cell` or an element
`div`. -/
inductive GridCell where
  | emptyCell : GridCell
  | elementCell : ElementDiv → GridCell
deriving DecidableEq, Repr

/-- Whether a child matches the selector `.element` of a bound cell. -/
def GridCell.isElement : GridCell → Bool
  | .emptyCell => false
  | .elementCell _ => true

/-- Whether a child is one of the `div.empty-cell` placeholders. -/
def GridCell.isEmpty : GridCell → Bool
  | .emptyCell => true
  | .elementCell _ => false

/-- The element `div` of a child, if it is one. -/
def GridCell.elementDiv? : GridCell → Option ElementDiv
  | .emptyCell => none
  | .elementCell d => some d

/-! ## Table renderer -/

/-- The constant `totalCells = 10 * 18`. -/
def totalCells : Nat := 10 * 18

/-- The body of the `elementsData.forEach` callback in `createPeriodicTable`:
for a non-null position the element `div` is created (which may throw), and if
the child exists (`cells[gridPosition]` is defined only for
`0 ≤ gridPosition < cells.length`) that child is replaced. -/
def placeElement (toLowerCase : JSString → JSString) (cells : List GridCell)
    (element : ElementRecord) : Except DOMError (List GridCell) :=
  match calculateGridPosition element.position.period element.position.group with
  | none => Except.ok cells
  | some gridPosition =>
    match createElementDiv toLowerCase element with
    | Except.error e => Except.error e
    | Except.ok elementDiv =>
      if 0 ≤ gridPosition ∧ gridPosition < (cells.length : Int) then
        Except.ok (cells.set gridPosition.toNat (GridCell.elementCell elementDiv))
      else
        Except.ok cells

/-- What `createPeriodicTable()` leaves behind: the children of `periodicTable`
and the exception that ended the call, if one did. -/
structure RenderOutcome where
  children : List GridCell
  error : Option DOMError
deriving DecidableEq, Repr

/-- The loop `elementsData.forEach(...)`: the records are placed in order; an
exception ends the loop with the children as they are. -/
def placeAll (toLowerCase : JSString → JSString) :
    List ElementRecord → List GridCell → RenderOutcome
  | [], cells => { children := cells, error := none }
  | element :: rest, cells =>
    match placeElement toLowerCase cells element with
    | Except.error e => { children := cells, error := some e }
    | Except.ok cells' => placeAll toLowerCase rest cells'

/-- The function `createPeriodicTable()`: 180 empty cells are appended, then
every element is placed. -/
def createPeriodicTable (toLowerCase : JSString → JSString)
    (elementsData : List ElementRecord) : RenderOutcome :=
  placeAll toLowerCase elementsData (List.replicate totalCells GridCell.emptyCell)

/-- The `.element` children in document order, as `querySelectorAll('.element')`
lists them when no element `div` contains a further `.element` node, which is
so for catalogs whose symbols and names are free of `<`. -/
def allElementsOf (cells : List GridCell) : List ElementDiv :=
  cells.filterMap GridCell.elementDiv?

/-- The grid index each record of a catalog resolves to. -/
def gridIndices (elementsData : List ElementRecord) : List (Option Int) :=
  elementsData.map (fun e => calculateGridPosition e.position.period e.position.group)

/-! ## Search and category filters -/

/-- The part of the page the filter handlers read and write, and whether
`bindEventListeners()` has run. -/
structure Page where
  searchInputValue : JSString
  clearSearchDisplay : JSString
  categoryFilterValue : JSString
  allElements : List ElementDiv
  listenersBound : Bool
deriving DecidableEq, Repr

/-- The function `showAllElements()`: both flags removed from every cell. -/
def showAllElements (page : Page) : Page :=
  { page with
    allElements := page.allElements.map (fun elementDiv =>
      { elementDiv with
        classList :=
          classListRemove (classListRemove elementDiv.classList "hidden".toList)
            "filtered-out".toList }) }

/-- The value `isMatch` computed for one cell in `handleSearch`. -/
def isMatch (toLowerCase : JSString → JSString) (searchTerm : JSString)
    (elementDiv : ElementDiv) : Bool :=
  let symbol := toLowerCase elementDiv.dataSymbol
  let name := elementDiv.dataName
  let atomicNumber := elementDiv.dataAtomicNumber
  includes symbol searchTerm || includes name searchTerm || includes atomicNumber searchTerm

/-- The body of the `allElements.forEach` callback in `handleSearch`. -/
def searchCell (toLowerCase : JSString → JSString) (searchTerm : JSString)
    (elementDiv : ElementDiv) : ElementDiv :=
  if isMatch toLowerCase searchTerm elementDiv then
    { elementDiv with classList := classListRemove elementDiv.classList "hidden".toList }
  else
    { elementDiv with classList := classListAdd elementDiv.classList "hidden".toList }

/-- The function `handleSearch()`. -/
def handleSearch (toLowerCase : JSString → JSString) (page : Page) : Page :=
  let searchTerm := trim (toLowerCase page.searchInputValue)
  if searchTerm = [] then
    { showAllElements page with clearSearchDisplay := "none".toList }
  else
    { page with
      clearSearchDisplay := "flex".toList
      allElements := page.allElements.map (searchCell toLowerCase searchTerm) }

/-- The function `clearSearch()`. -/
def clearSearch (page : Page) : Page :=
  { showAllElements { page with searchInputValue := [] } with
    clearSearchDisplay := "none".toList }

/-- The body of the `allElements.forEach` callback in `handleCategoryFilter`. -/
def categoryCell (selectedCategory : JSString) (elementDiv : ElementDiv) : ElementDiv :=
  if elementDiv.dataCategory = selectedCategory then
    { elementDiv with
      classList := classListRemove elementDiv.classList "filtered-out".toList }
  else
    { elementDiv with classList := classListAdd elementDiv.classList "filtered-out".toList }

/-- The function `handleCategoryFilter()`. -/
def handleCategoryFilter (page : Page) : Page :=
  let selectedCategory := page.categoryFilterValue
  if selectedCategory = "all".toList then
    showAllElements page
  else
    { page with allElements := page.allElements.map (categoryCell selectedCategory) }

/-- What the user can do to the filters; the browser stores the new control
value and then runs the listener bound in `bindEventListeners`. -/
inductive UserAction where
  | searchInput (value : JSString)
  | clearSearchClick
  | categoryChange (value : JSString)
deriving DecidableEq, Repr

/-- One user action applied to the page: the control takes its new value, and
the listener runs if it was bound. -/
def applyAction (toLowerCase : JSString → JSString) (page : Page) : UserAction → Page
  | .searchInput value =>
    if page.listenersBound then
      handleSearch toLowerCase { page with searchInputValue := value }
    else
      { page with searchInputValue := value }
  | .clearSearchClick => if page.listenersBound then clearSearch page else page
  | .categoryChange value =>
    if page.listenersBound then
      handleCategoryFilter { page with categoryFilterValue := value }
    else
      { page with categoryFilterValue := value }

/-- The page right after `init()`: an empty search box and the selector on
`all`.  When `createPeriodicTable()` returns, `allElements` holds the rendered
cells and the listeners are bound; when it throws, `init()` ends there, with
`allElements` still empty and no listener bound. -/
def initialPage (toLowerCase : JSString → JSString) (elementsData : List ElementRecord) :
    Page :=
  match (createPeriodicTable toLowerCase elementsData).error with
  | none =>
    { searchInputValue := []
      clearSearchDisplay := []
      categoryFilterValue := "all".toList
      allElements := allElementsOf (createPeriodicTable toLowerCase elementsData).children
      listenersBound := true }
  | some _ =>
    { searchInputValue := []
      clearSearchDisplay := []
      categoryFilterValue := "all".toList
      allElements := []
      listenersBound := false }

/-- The page after a sequence of user actions on the initial render. -/
def runActions (toLowerCase : JSString → JSString) (elementsData : List ElementRecord)
    (actions : List UserAction) : Page :=
  actions.foldl (applyAction toLowerCase) (initialPage toLowerCase elementsData)

/-- A cell is user-visible when it carries neither flag. -/
def userVisible (elementDiv : ElementDiv) : Bool :=
  !(decide ("hidden".toList ∈ elementDiv.classList)) &&
    !(decide ("filtered-out".toList ∈ elementDiv.classList))

/-- A cell matches the current search term: the normalised term is empty or
the cell passes `isMatch`. -/
def matchesSearch (toLowerCase : JSString → JSString) (page : Page)
    (elementDiv : ElementDiv) : Bool :=
  let searchTerm := trim (toLowerCase page.searchInputValue)
  decide (searchTerm = []) || isMatch toLowerCase searchTerm elementDiv

/-- A cell matches the selected category: the selector is on `all` or on the
cell's category. -/
def matchesCategory (page : Page) (elementDiv : ElementDiv) : Bool :=
  decide (page.categoryFilterValue = "all".toList) ||
    decide (elementDiv.dataCategory = page.categoryFilterValue)

/-! ## Keyboard navigator -/

/-- The values of `e.key` the navigator distinguishes. -/
inductive Key where
  | arrowRight
  | arrowLeft
  | arrowDown
  | arrowUp
  | other
deriving DecidableEq, Repr

/-- The `switch (e.key)` of the navigator's `keydown` listener, for `length`
rendered cells. -/
def arrowStep (length : Nat) (currentIndex : Int) : Key → Int
  | .arrowRight => min (currentIndex + 1) ((length : Int) - 1)
  | .arrowLeft => max (currentIndex - 1) 0
  | .arrowDown => min (currentIndex + 18) ((length : Int) - 1)
  | .arrowUp => max (currentIndex - 18) 0
  | .other => currentIndex

/-- The events that reach the navigator: a key press, with whether its guard
holds (no open modal, neither form control focused), and a focus event on the
cell at `index`, which exists for every index below `length` only. -/
inductive NavEvent (length : Nat) where
  | keydown (key : Key) (guardHolds : Bool) : NavEvent length
  | focus (index : Fin length) : NavEvent length

/-- One event applied to `currentIndex`. -/
def navStep (length : Nat) (currentIndex : Int) : NavEvent length → Int
  | .keydown key guardHolds => if guardHolds then arrowStep length currentIndex key else currentIndex
  | .focus index => (index.val : Int)

/-- The variable `currentIndex` after a sequence of events. -/
def navRun (length : Nat) (currentIndex : Int) (events : List (NavEvent length)) : Int :=
  events.foldl (navStep length) currentIndex

/-! ## Sample data -/

/-- A record with the given number, symbol, name, category and position; the
fields no handler reads are left empty. -/
def sampleRecord (atomicNumber : Nat) (symbol name category : String) (period group : Int) :
    ElementRecord :=
  { atomicNumber := atomicNumber
    symbol := symbol.toList
    name := name.toList
    atomicMass := []
    category := category.toList
    electronConfig := []
    phase := []
    discovered := []
    position := { period := period, group := group } }

/-- Hydrogen. -/
def hydrogen : ElementRecord := sampleRecord 1 "H" "Hydrogen" "nonmetal" 1 1

/-- Helium. -/
def helium : ElementRecord := sampleRecord 2 "He" "Helium" "noble-gas" 1 18

/-- Neon. -/
def neon : ElementRecord := sampleRecord 10 "Ne" "Neon" "noble-gas" 2 18

/-- Lanthanum, on the first breakout row. -/
def lanthanum : ElementRecord := sampleRecord 57 "La" "Lanthanum" "lanthanide" 8 4

/-- Actinium, on the second breakout row. -/
def actinium : ElementRecord := sampleRecord 89 "Ac" "Actinium" "actinide" 9 4

/-- A three-record catalog. -/
def sampleCatalog : List ElementRecord := [hydrogen, helium, neon]

/-- A five-record catalog that uses the main body and both breakout rows. -/
def breakoutCatalog : List ElementRecord := [hydrogen, helium, neon, lanthanum, actinium]

/-- Hydrogen, a record with an empty category, Neon. -/
def emptyCategoryCatalog : List ElementRecord :=
  [hydrogen, sampleRecord 5 "B" "Boron" "" 2 13, neon]

/-- Hydrogen, a record whose category contains a space, Neon. -/
def spacedCategoryCatalog : List ElementRecord :=
  [hydrogen, sampleRecord 5 "B" "Boron" "post transition" 2 13, neon]

/-- The cell `createElementDiv` builds for a record, with its class list
replaced; no cell if the creation throws. -/
def sampleCells (element : ElementRecord) (classList : List JSString) : List ElementDiv :=
  match createElementDiv asciiToLowerCase element with
  | Except.ok elementDiv => [{ elementDiv with classList := classList }]
  | Except.error _ => []

/-- A page whose search box holds `value`, with Hydrogen already carrying both
flags, Helium none and Neon the category flag. -/
def searchSamplePage (value : String) : Page :=
  { searchInputValue := value.toList
    clearSearchDisplay := "none".toList
    categoryFilterValue := "all".toList
    allElements :=
      sampleCells hydrogen ["element".toList, "hidden".toList, "filtered-out".toList] ++
        sampleCells helium ["element".toList, "noble-gas".toList] ++
        sampleCells neon ["element".toList, "filtered-out".toList]
    listenersBound := true }

/-- A page on which the search for `he` has hidden Hydrogen and Neon and the
selector has just been set to `all`. -/
def categoryAllSamplePage : Page :=
  { handleSearch asciiToLowerCase
      { initialPage asciiToLowerCase sampleCatalog with searchInputValue := "he".toList } with
    categoryFilterValue := "all".toList }

/-- The page after selecting `noble-gas`, emptying the search box and typing
`h`, starting from the initial render of the sample catalog. -/
def categoryThenSearchPage : Page :=
  runActions asciiToLowerCase sampleCatalog
    [.categoryChange "noble-gas".toList, .searchInput [], .searchInput "h".toList]

/-- The page after typing `he`, selecting `noble-gas`, then `all`, then
`noble-gas` again, starting from the initial render of the sample catalog. -/
def searchThenCategoryPage : Page :=
  runActions asciiToLowerCase sampleCatalog
    [.searchInput "he".toList, .categoryChange "noble-gas".toList,
      .categoryChange "all".toList, .categoryChange "noble-gas".toList]

/-! ## Theorems about the grid layout engine -/

/-- An integer of magnitude at most `2^53` is a double: rounding leaves it. -/
theorem roundToDouble_of_safe (n : Int) (hlow : -9007199254740992 ≤ n)
    (hhigh : n ≤ 9007199254740992) : roundToDouble n = n := by
  unfold roundToDouble
  rw [if_pos ⟨hlow, hhigh⟩]

/-- On the main body no operation of `calculateGridPosition` rounds. -/
theorem calculateGridPosition_main_value (period group : Int)
    (hp : 1 ≤ period ∧ period ≤ 7) (hg : 1 ≤ group ∧ group ≤ 18) :
    calculateGridPosition period group = some ((period - 1) * 18 + (group - 1)) := by
  obtain ⟨hp1, hp7⟩ := hp
  obtain ⟨hg1, hg18⟩ := hg
  have h8 : period ≠ 8 := by omega
  have h9 : period ≠ 9 := by omega
  unfold calculateGridPosition numAdd numMul numSub
  rw [if_neg h8, if_neg h9, if_pos ⟨hp1, hp7, hg1, hg18⟩,
    roundToDouble_of_safe (period - 1) (by omega) (by omega),
    roundToDouble_of_safe ((period - 1) * 18) (by omega) (by omega),
    roundToDouble_of_safe (group - 1) (by omega) (by omega),
    roundToDouble_of_safe ((period - 1) * 18 + (group - 1)) (by omega) (by omega)]

/-- On the first breakout row no operation rounds while the group stays
within `(-2^53, 2^53 - 125]`. -/
theorem calculateGridPosition_period_eight (group : Int)
    (hlow : -9007199254740992 < group) (hhigh : group ≤ 9007199254740992 - 125) :
    calculateGridPosition 8 group = some (7 * 18 + (group - 1)) := by
  unfold calculateGridPosition numAdd numMul numSub
  rw [if_pos rfl, roundToDouble_of_safe (7 * 18) (by decide) (by decide),
    roundToDouble_of_safe (group - 1) (by omega) (by omega),
    roundToDouble_of_safe (7 * 18 + (group - 1)) (by omega) (by omega)]

/-- On the second breakout row no operation rounds while the group stays
within `(-2^53, 2^53 - 143]`. -/
theorem calculateGridPosition_period_nine (group : Int)
    (hlow : -9007199254740992 < group) (hhigh : group ≤ 9007199254740992 - 143) :
    calculateGridPosition 9 group = some (8 * 18 + (group - 1)) := by
  unfold calculateGridPosition numAdd numMul numSub
  rw [if_neg (by decide), if_pos rfl, roundToDouble_of_safe (8 * 18) (by decide) (by decide),
    roundToDouble_of_safe (group - 1) (by omega) (by omega),
    roundToDouble_of_safe (8 * 18 + (group - 1)) (by omega) (by omega)]

/-- C1: for period in 1..7 and group in 1..18, `calculateGridPosition` returns
exactly `(period-1)*18 + (group-1)`, and that value lies in [0, 125]. -/
theorem calculateGridPosition_main_body (period group : Int)
    (hp : 1 ≤ period ∧ period ≤ 7) (hg : 1 ≤ group ∧ group ≤ 18) :
    calculateGridPosition period group = some ((period - 1) * 18 + (group - 1)) ∧
      0 ≤ (period - 1) * 18 + (group - 1) ∧ (period - 1) * 18 + (group - 1) ≤ 125 := by
  refine ⟨calculateGridPosition_main_value period group hp hg, ?_, ?_⟩ <;> omega

theorem calculateGridPosition_main_body_witness :
    (1 ≤ (3 : Int) ∧ (3 : Int) ≤ 7) ∧ (1 ≤ (5 : Int) ∧ (5 : Int) ≤ 18) ∧
      (calculateGridPosition 3 5 = some ((3 - 1) * 18 + (5 - 1)) ∧
        0 ≤ ((3 : Int) - 1) * 18 + (5 - 1) ∧ ((3 : Int) - 1) * 18 + (5 - 1) ≤ 125) :=
  ⟨by decide, by decide, calculateGridPosition_main_body 3 5 (by decide) (by decide)⟩

/-- C2 (as stated, refuted): for period 8 and group `2^53` the code returns
`9007199254741116`, not `7*18 + (2^53 - 1) = 9007199254741117`, because the sum
is not a double and rounds to the even neighbour; for period 9 and group `2^53`
it returns `9007199254741136`, not `8*18 + (2^53 - 1) = 9007199254741135`. -/
theorem calculateGridPosition_breakout_rounds :
    calculateGridPosition 8 9007199254740992 = some 9007199254741116 ∧
      (7 * 18 + (9007199254740992 - 1) : Int) = 9007199254741117 ∧
      calculateGridPosition 8 9007199254740992 ≠ some (7 * 18 + (9007199254740992 - 1)) ∧
      calculateGridPosition 9 9007199254740992 = some 9007199254741136 ∧
      (8 * 18 + (9007199254740992 - 1) : Int) = 9007199254741135 ∧
      calculateGridPosition 9 9007199254740992 ≠ some (8 * 18 + (9007199254740992 - 1)) := by
  decide

/-- C2 (amended): for period 8 and every integer group with
`-2^53 < group ≤ 2^53 - 125` (inside 1..18 or not) the result is
`7*18 + (group-1)`; for period 9 and every integer group with
`-2^53 < group ≤ 2^53 - 143` it is `8*18 + (group-1)`; and for every integer
group whatever the result is not null in either case. -/
theorem calculateGridPosition_breakout_rows (group : Int) :
    (-9007199254740992 < group → group ≤ 9007199254740992 - 125 →
        calculateGridPosition 8 group = some (7 * 18 + (group - 1))) ∧
      (-9007199254740992 < group → group ≤ 9007199254740992 - 143 →
        calculateGridPosition 9 group = some (8 * 18 + (group - 1))) ∧
      calculateGridPosition 8 group ≠ none ∧ calculateGridPosition 9 group ≠ none := by
  refine ⟨calculateGridPosition_period_eight group, calculateGridPosition_period_nine group,
    ?_, ?_⟩ <;> simp [calculateGridPosition]

theorem calculateGridPosition_breakout_rows_witness :
    (-9007199254740992 < (25 : Int) ∧ (25 : Int) ≤ 9007199254740992 - 143) ∧
      calculateGridPosition 8 25 = some (7 * 18 + (25 - 1)) ∧
      calculateGridPosition 9 25 = some (8 * 18 + (25 - 1)) ∧
      calculateGridPosition 8 25 = some 150 ∧ calculateGridPosition 9 25 = some 168 ∧
      calculateGridPosition 8 (-3) = some 122 ∧
      calculateGridPosition 8 (9007199254740992 - 125) = some 9007199254740992 :=
  ⟨by decide,
    (calculateGridPosition_breakout_rows 25).1 (by decide) (by decide),
    (calculateGridPosition_breakout_rows 25).2.1 (by decide) (by decide),
    by decide, by decide, by decide, by decide⟩

/-- C3: `calculateGridPosition` returns null exactly when the period is neither
8 nor 9 and the period is outside 1..7 or the group is outside 1..18; in every
other case it returns an integer index. -/
theorem calculateGridPosition_null_iff (period group : Int) :
    (calculateGridPosition period group = none ↔
        period ≠ 8 ∧ period ≠ 9 ∧
          (¬ (1 ≤ period ∧ period ≤ 7) ∨ ¬ (1 ≤ group ∧ group ≤ 18))) ∧
      (¬ (period ≠ 8 ∧ period ≠ 9 ∧
          (¬ (1 ≤ period ∧ period ≤ 7) ∨ ¬ (1 ≤ group ∧ group ≤ 18))) →
        ∃ index : Int, calculateGridPosition period group = some index) := by
  unfold calculateGridPosition
  by_cases h8 : period = 8
  · simp [h8]
  · by_cases h9 : period = 9
    · simp [h9]
    · by_cases hm : period ≥ 1 ∧ period ≤ 7 ∧ group ≥ 1 ∧ group ≤ 18
      · rw [if_neg h8, if_neg h9, if_pos hm]
        obtain ⟨a, b, c, d⟩ := hm
        refine ⟨⟨fun h => by simp at h, fun h => ?_⟩, fun _ => ⟨_, rfl⟩⟩
        rcases h.2.2 with h | h
        · exact absurd ⟨a, b⟩ h
        · exact absurd ⟨c, d⟩ h
      · rw [if_neg h8, if_neg h9, if_neg hm]
        refine ⟨⟨fun _ => ⟨h8, h9, ?_⟩, fun _ => rfl⟩, fun h => ?_⟩
        · by_cases hp : 1 ≤ period ∧ period ≤ 7
          · right
            intro hg
            exact hm ⟨hp.1, hp.2, hg.1, hg.2⟩
          · exact Or.inl hp
        · exfalso
          apply h
          refine ⟨h8, h9, ?_⟩
          by_cases hp : 1 ≤ period ∧ period ≤ 7
          · right
            intro hg
            exact hm ⟨hp.1, hp.2, hg.1, hg.2⟩
          · exact Or.inl hp

/-- C8: `calculateGridPosition` is injective on the main body: equal results
for periods in 1..7 and groups in 1..18 force equal periods and equal groups. -/
theorem calculateGridPosition_injective_main_body (p1 g1 p2 g2 : Int)
    (hp1 : 1 ≤ p1 ∧ p1 ≤ 7) (hg1 : 1 ≤ g1 ∧ g1 ≤ 18)
    (hp2 : 1 ≤ p2 ∧ p2 ≤ 7) (hg2 : 1 ≤ g2 ∧ g2 ≤ 18)
    (h : calculateGridPosition p1 g1 = calculateGridPosition p2 g2) :
    p1 = p2 ∧ g1 = g2 := by
  rw [calculateGridPosition_main_value p1 g1 hp1 hg1,
    calculateGridPosition_main_value p2 g2 hp2 hg2] at h
  have h' : (p1 - 1) * 18 + (g1 - 1) = (p2 - 1) * 18 + (g2 - 1) := Option.some.inj h
  omega

theorem calculateGridPosition_injective_main_body_witness :
    calculateGridPosition 2 13 = calculateGridPosition 2 13 ∧
      ((2 : Int) = 2 ∧ (13 : Int) = 13) :=
  ⟨rfl, calculateGridPosition_injective_main_body 2 13 2 13
    (by decide) (by decide) (by decide) (by decide) rfl⟩

/-- C10 (evaluation of the code where it departs from its comments): for
period 8, group 1 the code returns index 126, which is row index 7 but column
index 0; for period 9, group 1 it returns 144, row index 8 and column index 0.
Neither column lies in 4..17. -/
theorem calculateGridPosition_breakout_group_one_column :
    calculateGridPosition 8 1 = some 126 ∧ gridRow 126 = 7 ∧ gridColumn 126 = 0 ∧
      calculateGridPosition 9 1 = some 144 ∧ gridRow 144 = 8 ∧ gridColumn 144 = 0 ∧
      ¬ (4 ≤ gridColumn 126 ∧ gridColumn 126 ≤ 17) ∧
      ¬ (4 ≤ gridColumn 144 ∧ gridColumn 144 ≤ 17) := by
  decide

/-! ## Class-list lemmas -/

theorem mem_classListAdd (classList : List JSString) (token x : JSString) :
    x ∈ classListAdd classList token ↔ x ∈ classList ∨ x = token := by
  unfold classListAdd
  by_cases h : token ∈ classList
  · rw [if_pos h]
    constructor
    · exact Or.inl
    · rintro (hx | hx)
      · exact hx
      · exact hx ▸ h
  · rw [if_neg h]
    simp

theorem mem_classListRemove (classList : List JSString) (token x : JSString) :
    x ∈ classListRemove classList token ↔ x ∈ classList ∧ x ≠ token := by
  simp [classListRemove]

theorem includes_iff (s t : JSString) : includes s t = true ↔ t <:+: s := by
  simp [includes]

/-- What `createElementDiv` stores in the attributes of the cell it returns. -/
theorem createElementDiv_attributes (toLowerCase : JSString → JSString)
    (element : ElementRecord) (elementDiv : ElementDiv)
    (hcreate : createElementDiv toLowerCase element = Except.ok elementDiv) :
    elementDiv.dataAtomicNumber = numberToString element.atomicNumber ∧
      elementDiv.dataSymbol = element.symbol ∧
      elementDiv.dataName = toLowerCase element.name ∧
      elementDiv.dataCategory = element.category ∧ elementDiv.element = element := by
  unfold createElementDiv at hcreate
  split at hcreate
  · cases hcreate
  · cases hcreate
    exact ⟨rfl, rfl, rfl, rfl, rfl⟩

/-- A category that is a class token makes `createElementDiv` return a cell. -/
theorem createElementDiv_ok_of_token (toLowerCase : JSString → JSString)
    (element : ElementRecord) (hne : element.category ≠ [])
    (hws : element.category.any isAsciiWhitespace = false) :
    ∃ elementDiv : ElementDiv, createElementDiv toLowerCase element = Except.ok elementDiv := by
  have helement : validateToken "element".toList = Except.ok () := rfl
  have hcategory : validateToken element.category = Except.ok () := by
    unfold validateToken
    rw [if_neg hne, hws]
    rfl
  have hall : validateTokens ["element".toList, element.category] = Except.ok () := by
    simp only [validateTokens, helement, hcategory]
  unfold createElementDiv classListAddAll
  simp only [hall]
  exact ⟨_, rfl⟩

theorem isMatch_of_created (toLowerCase : JSString → JSString) (searchTerm : JSString)
    (element : ElementRecord) (elementDiv : ElementDiv) (classList : List JSString)
    (hcreate : createElementDiv toLowerCase element = Except.ok elementDiv) :
    isMatch toLowerCase searchTerm { elementDiv with classList := classList } = true ↔
      (searchTerm <:+: toLowerCase element.symbol ∨ searchTerm <:+: toLowerCase element.name ∨
        searchTerm <:+: numberToString element.atomicNumber) := by
  obtain ⟨hnumber, hsymbol, hname, _, _⟩ :=
    createElementDiv_attributes toLowerCase element elementDiv hcreate
  simp [isMatch, includes_iff, or_assoc, hnumber, hsymbol, hname]

/-! ## Theorems about the search filter -/

/-- C4: for every case mapping `toLowerCase` and every input whose lowercased,
trimmed form `t` is non-empty, `handleSearch` keeps every rendered cell in
place and leaves it without the `hidden` class exactly when `t` is a substring
of its lowercased symbol, of its lowercased name, or of its decimal
atomic-number string, whatever classes it had before; no other class of the
cell changes.  The cells are those of a catalog inside the model: symbols and
names without `<`, and an atomic number below `10^21`, where the stored string
is the decimal digits. -/
theorem handleSearch_hidden_iff_no_match (toLowerCase : JSString → JSString) (page : Page)
    (hterm : trim (toLowerCase page.searchInputValue) ≠ [])
    (_hmarkup : ∀ d ∈ page.allElements, '<' ∉ d.element.symbol ∧ '<' ∉ d.element.name) :
    (handleSearch toLowerCase page).allElements.length = page.allElements.length ∧
      ∀ (i : Nat) (element : ElementRecord) (elementDiv : ElementDiv)
        (classList : List JSString),
        createElementDiv toLowerCase element = Except.ok elementDiv →
        element.atomicNumber < 10 ^ 21 →
        page.allElements[i]? = some { elementDiv with classList := classList } →
        ∃ classList' : List JSString,
          (handleSearch toLowerCase page).allElements[i]? =
              some { elementDiv with classList := classList' } ∧
            ("hidden".toList ∉ classList' ↔
              (trim (toLowerCase page.searchInputValue) <:+: toLowerCase element.symbol ∨
                trim (toLowerCase page.searchInputValue) <:+: toLowerCase element.name ∨
                trim (toLowerCase page.searchInputValue) <:+:
                  Nat.toDigits 10 element.atomicNumber)) ∧
            ∀ token : JSString, token ≠ "hidden".toList →
              (token ∈ classList' ↔ token ∈ classList) := by
  have hs : (handleSearch toLowerCase page).allElements =
      page.allElements.map (searchCell toLowerCase (trim (toLowerCase page.searchInputValue))) := by
    unfold handleSearch
    simp only [if_neg hterm]
  rw [hs]
  refine ⟨List.length_map _ _, ?_⟩
  intro i element elementDiv classList hcreate _ hi
  rw [List.getElem?_map, hi, Option.map_some']
  have hmatch := isMatch_of_created toLowerCase (trim (toLowerCase page.searchInputValue))
    element elementDiv classList hcreate
  unfold numberToString at hmatch
  by_cases hm : isMatch toLowerCase (trim (toLowerCase page.searchInputValue))
      { elementDiv with classList := classList } = true
  · refine ⟨classListRemove classList "hidden".toList, ?_, ?_, ?_⟩
    · unfold searchCell
      rw [if_pos hm]
    · rw [mem_classListRemove]
      constructor
      · intro _
        exact hmatch.1 hm
      · intro _ h
        exact h.2 rfl
    · intro token htoken
      rw [mem_classListRemove]
      exact ⟨fun h => h.1, fun h => ⟨h, htoken⟩⟩
  · refine ⟨classListAdd classList "hidden".toList, ?_, ?_, ?_⟩
    · unfold searchCell
      rw [if_neg hm]
    · rw [mem_classListAdd]
      constructor
      · intro h
        exact absurd (Or.inr rfl) h
      · intro h
        exact absurd (hmatch.2 h) hm
    · intro token htoken
      rw [mem_classListAdd]
      exact ⟨fun h => h.resolve_right htoken, Or.inl⟩

theorem handleSearch_hidden_iff_no_match_witness :
    trim (asciiToLowerCase (searchSamplePage " H ").searchInputValue) ≠ [] ∧
      (∀ d ∈ (searchSamplePage " H ").allElements,
        '<' ∉ d.element.symbol ∧ '<' ∉ d.element.name) ∧
      ((handleSearch asciiToLowerCase (searchSamplePage " H ")).allElements.length =
          (searchSamplePage " H ").allElements.length ∧
        ∀ (i : Nat) (element : ElementRecord) (elementDiv : ElementDiv)
          (classList : List JSString),
          createElementDiv asciiToLowerCase element = Except.ok elementDiv →
          element.atomicNumber < 10 ^ 21 →
          (searchSamplePage " H ").allElements[i]? =
              some { elementDiv with classList := classList } →
          ∃ classList' : List JSString,
            (handleSearch asciiToLowerCase (searchSamplePage " H ")).allElements[i]? =
                some { elementDiv with classList := classList' } ∧
              ("hidden".toList ∉ classList' ↔
                (trim (asciiToLowerCase (searchSamplePage " H ").searchInputValue) <:+:
                    asciiToLowerCase element.symbol ∨
                  trim (asciiToLowerCase (searchSamplePage " H ").searchInputValue) <:+:
                    asciiToLowerCase element.name ∨
                  trim (asciiToLowerCase (searchSamplePage " H ").searchInputValue) <:+:
                    Nat.toDigits 10 element.atomicNumber)) ∧
              ∀ token : JSString, token ≠ "hidden".toList →
                (token ∈ classList' ↔ token ∈ classList)) ∧
      trim (asciiToLowerCase (searchSamplePage " H ").searchInputValue) = "h".toList ∧
      (searchSamplePage " H ").allElements.map
          (fun d => (d.dataSymbol, d.dataName, d.dataAtomicNumber)) =
        [("H".toList, "hydrogen".toList, "1".toList),
          ("He".toList, "helium".toList, "2".toList),
          ("Ne".toList, "neon".toList, "10".toList)] ∧
      (handleSearch asciiToLowerCase (searchSamplePage " H ")).allElements.map
          (fun d => (d.element.atomicNumber, decide ("hidden".toList ∈ d.classList))) =
        [(1, false), (2, false), (10, true)] ∧
      (handleSearch asciiToLowerCase (searchSamplePage "1")).allElements.map
          (fun d => (d.element.atomicNumber, decide ("hidden".toList ∈ d.classList))) =
        [(1, false), (2, true), (10, false)] ∧
      (handleSearch asciiToLowerCase (searchSamplePage "10")).allElements.map
          (fun d => (d.element.atomicNumber, decide ("hidden".toList ∈ d.classList))) =
        [(1, true), (2, true), (10, false)] ∧
      (handleSearch asciiToLowerCase (searchSamplePage " LIUM")).allElements.map
          (fun d => (d.element.atomicNumber, decide ("hidden".toList ∈ d.classList))) =
        [(1, true), (2, false), (10, true)] ∧
      (handleSearch asciiToLowerCase (searchSamplePage "NE")).allElements.map
          (fun d => (d.element.atomicNumber, decide ("hidden".toList ∈ d.classList))) =
        [(1, true), (2, true), (10, false)] ∧
      (handleSearch asciiToLowerCase (searchSamplePage "x")).allElements.map
          (fun d => (d.element.atomicNumber, decide ("hidden".toList ∈ d.classList))) =
        [(1, true), (2, true), (10, true)] :=
  ⟨by decide, by decide,
    handleSearch_hidden_iff_no_match asciiToLowerCase (searchSamplePage " H ")
      (by decide) (by decide),
    by decide, by decide, by decide, by decide, by decide, by decide, by decide, by decide⟩

/-! ## Theorems about the combined filters -/

/-- The specific-category branch of `handleCategoryFilter` never touches the
`hidden` class of a cell. -/
theorem categoryCell_keeps_hidden (selectedCategory : JSString) (elementDiv : ElementDiv) :
    "hidden".toList ∈ (categoryCell selectedCategory elementDiv).classList ↔
      "hidden".toList ∈ elementDiv.classList := by
  have hne : "hidden".toList ≠ "filtered-out".toList := by decide
  unfold categoryCell
  split
  · simp only [mem_classListRemove]
    exact ⟨fun h => h.1, fun h => ⟨h, hne⟩⟩
  · simp only [mem_classListAdd]
    exact ⟨fun h => h.resolve_right hne, Or.inl⟩

/-- The non-empty-term branch of `handleSearch` never touches the
`filtered-out` class of a cell. -/
theorem searchCell_keeps_filtered_out (toLowerCase : JSString → JSString)
    (searchTerm : JSString) (elementDiv : ElementDiv) :
    "filtered-out".toList ∈ (searchCell toLowerCase searchTerm elementDiv).classList ↔
      "filtered-out".toList ∈ elementDiv.classList := by
  have hne : "filtered-out".toList ≠ "hidden".toList := by decide
  unfold searchCell
  split
  · simp only [mem_classListRemove]
    exact ⟨fun h => h.1, fun h => ⟨h, hne⟩⟩
  · simp only [mem_classListAdd]
    exact ⟨fun h => h.resolve_right hne, Or.inl⟩

set_option maxRecDepth 100000 in
/-- C5 (evaluation of the code on two action sequences from the initial
render): after selecting `noble-gas`, emptying the search box and typing `h`,
Hydrogen matches the term `h`, does not match the selected category
`noble-gas`, and is user-visible; after typing `he`, selecting `noble-gas`,
then `all`, then `noble-gas` again, Neon matches the selected category, does not
match the term `he`, and is user-visible. -/
theorem combined_filter_lost_after_showAllElements :
    (categoryThenSearchPage.categoryFilterValue = "noble-gas".toList ∧
        trim (asciiToLowerCase categoryThenSearchPage.searchInputValue) = "h".toList ∧
        categoryThenSearchPage.allElements.map
            (fun d => (d.element.atomicNumber, userVisible d,
              matchesSearch asciiToLowerCase categoryThenSearchPage d,
              matchesCategory categoryThenSearchPage d)) =
          [(1, true, true, false), (2, true, true, true), (10, false, false, true)]) ∧
      (searchThenCategoryPage.categoryFilterValue = "noble-gas".toList ∧
        trim (asciiToLowerCase searchThenCategoryPage.searchInputValue) = "he".toList ∧
        searchThenCategoryPage.allElements.map
            (fun d => (d.element.atomicNumber, userVisible d,
              matchesSearch asciiToLowerCase searchThenCategoryPage d,
              matchesCategory searchThenCategoryPage d)) =
          [(1, false, false, false), (2, true, true, true), (10, true, false, true)]) := by
  decide

set_option maxRecDepth 100000 in
/-- C6 (evaluation of the code on a page where the search for `he` has hidden
Hydrogen and Neon): `handleCategoryFilter` with the selector on `all` leaves no
cell with the `filtered-out` class, and also removes the `hidden` class from
Hydrogen and Neon, which carried it before the call. -/
theorem handleCategoryFilter_all_removes_hidden :
    categoryAllSamplePage.categoryFilterValue = "all".toList ∧
      categoryAllSamplePage.allElements.map
          (fun d => (d.element.atomicNumber, decide ("hidden".toList ∈ d.classList))) =
        [(1, true), (2, false), (10, true)] ∧
      (handleCategoryFilter categoryAllSamplePage).allElements.map
          (fun d => (d.element.atomicNumber, decide ("hidden".toList ∈ d.classList),
            decide ("filtered-out".toList ∈ d.classList))) =
        [(1, false, false), (2, false, false), (10, false, false)] := by
  decide

/-! ## Theorems about the keyboard navigator -/

theorem arrowStep_in_range (length : Nat) (i : Int) (hi : 0 ≤ i ∧ i < length) (key : Key) :
    0 ≤ arrowStep length i key ∧ arrowStep length i key < length := by
  obtain ⟨h0, h1⟩ := hi
  cases key <;> simp only [arrowStep] <;> omega

theorem navStep_in_range (length : Nat) (i : Int) (hi : 0 ≤ i ∧ i < length)
    (event : NavEvent length) :
    0 ≤ navStep length i event ∧ navStep length i event < length := by
  cases event with
  | keydown key guardHolds =>
    cases guardHolds
    · simpa [navStep] using hi
    · simpa [navStep] using arrowStep_in_range length i hi key
  | focus index =>
    have := index.isLt
    simp only [navStep]
    omega

theorem navRun_in_range (length : Nat) (events : List (NavEvent length)) :
    ∀ i : Int, (0 ≤ i ∧ i < length) →
      0 ≤ navRun length i events ∧ navRun length i events < length := by
  induction events with
  | nil => intro i hi; simpa [navRun] using hi
  | cons event rest ih =>
    intro i hi
    have := ih (navStep length i event) (navStep_in_range length i hi event)
    simpa [navRun] using this

/-- C9: with `length ≥ 1` rendered cells and an index `i` in `[0, length)`,
each arrow transition (right `min(i+1, length-1)`, left `max(i-1, 0)`, down
`min(i+18, length-1)`, up `max(i-18, 0)`) yields an index in `[0, length)`, and
so does every sequence of key and cell-focus events; from 0 up and left stay
at 0, and from `length-1` down and right stay at `length-1`. -/
theorem navigator_index_stays_in_range (length : Nat) (hlength : 1 ≤ length) (i : Int)
    (hi : 0 ≤ i ∧ i < length) :
    (arrowStep length i .arrowRight = min (i + 1) ((length : Int) - 1) ∧
        arrowStep length i .arrowLeft = max (i - 1) 0 ∧
        arrowStep length i .arrowDown = min (i + 18) ((length : Int) - 1) ∧
        arrowStep length i .arrowUp = max (i - 18) 0) ∧
      (∀ key : Key, 0 ≤ arrowStep length i key ∧ arrowStep length i key < length) ∧
      (∀ events : List (NavEvent length),
        0 ≤ navRun length i events ∧ navRun length i events < length) ∧
      (∀ events : List (NavEvent length),
        0 ≤ navRun length 0 events ∧ navRun length 0 events < length) ∧
      arrowStep length 0 .arrowUp = 0 ∧ arrowStep length 0 .arrowLeft = 0 ∧
      arrowStep length ((length : Int) - 1) .arrowDown = (length : Int) - 1 ∧
      arrowStep length ((length : Int) - 1) .arrowRight = (length : Int) - 1 := by
  refine ⟨⟨rfl, rfl, rfl, rfl⟩, arrowStep_in_range length i hi,
    fun events => navRun_in_range length events i hi,
    fun events => navRun_in_range length events 0 ⟨le_refl 0, by omega⟩, ?_, ?_, ?_, ?_⟩ <;>
    simp only [arrowStep] <;> omega

theorem navigator_index_stays_in_range_witness :
    1 ≤ 5 ∧ (0 ≤ (2 : Int) ∧ (2 : Int) < ((5 : Nat) : Int)) ∧
      ((arrowStep 5 2 .arrowRight = min (2 + 1) (((5 : Nat) : Int) - 1) ∧
          arrowStep 5 2 .arrowLeft = max (2 - 1) 0 ∧
          arrowStep 5 2 .arrowDown = min (2 + 18) (((5 : Nat) : Int) - 1) ∧
          arrowStep 5 2 .arrowUp = max (2 - 18) 0) ∧
        (∀ key : Key, 0 ≤ arrowStep 5 2 key ∧ arrowStep 5 2 key < ((5 : Nat) : Int)) ∧
        (∀ events : List (NavEvent 5),
          0 ≤ navRun 5 2 events ∧ navRun 5 2 events < ((5 : Nat) : Int)) ∧
        (∀ events : List (NavEvent 5),
          0 ≤ navRun 5 0 events ∧ navRun 5 0 events < ((5 : Nat) : Int)) ∧
        arrowStep 5 0 .arrowUp = 0 ∧ arrowStep 5 0 .arrowLeft = 0 ∧
        arrowStep 5 (((5 : Nat) : Int) - 1) .arrowDown = ((5 : Nat) : Int) - 1 ∧
        arrowStep 5 (((5 : Nat) : Int) - 1) .arrowRight = ((5 : Nat) : Int) - 1) :=
  ⟨by decide, by decide, navigator_index_stays_in_range 5 (by decide) 2 (by decide)⟩

/-! ## Theorems about the table renderer -/

theorem countP_isElement_add_isEmpty (cells : List GridCell) :
    cells.countP GridCell.isElement + cells.countP GridCell.isEmpty = cells.length := by
  induction cells with
  | nil => rfl
  | cons cell rest ih =>
    cases cell <;>
      simp [List.countP_cons, GridCell.isElement, GridCell.isEmpty] <;> omega

/-- Every record of the data model (period 1..9, group 1..18) resolves to a
grid index in [0, 180). -/
theorem calculateGridPosition_in_grid (period group : Int)
    (hp : 1 ≤ period ∧ period ≤ 9) (hg : 1 ≤ group ∧ group ≤ 18) :
    ∃ index : Int, calculateGridPosition period group = some index ∧
      0 ≤ index ∧ index < 180 := by
  by_cases h8 : period = 8
  · subst h8
    exact ⟨_, calculateGridPosition_period_eight group (by omega) (by omega),
      by omega, by omega⟩
  · by_cases h9 : period = 9
    · subst h9
      exact ⟨_, calculateGridPosition_period_nine group (by omega) (by omega),
        by omega, by omega⟩
    · have hp7 : 1 ≤ period ∧ period ≤ 7 := by omega
      exact ⟨_, calculateGridPosition_main_value period group hp7 hg, by omega, by omega⟩

/-- Placing a record with a valid category on an empty child returns normally,
raises the number of element cells by one and leaves every other child as it
was. -/
theorem placeElement_on_empty (toLowerCase : JSString → JSString) (cells : List GridCell)
    (element : ElementRecord) (i : Nat)
    (hne : element.category ≠ [])
    (hws : element.category.any isAsciiWhitespace = false)
    (hpos : calculateGridPosition element.position.period element.position.group =
      some (i : Int))
    (hi : i < cells.length) (hempty : cells[i]? = some GridCell.emptyCell) :
    ∃ elementDiv : ElementDiv,
      placeElement toLowerCase cells element =
          Except.ok (cells.set i (GridCell.elementCell elementDiv)) ∧
        (cells.set i (GridCell.elementCell elementDiv)).countP GridCell.isElement =
          cells.countP GridCell.isElement + 1 := by
  obtain ⟨elementDiv, hcreate⟩ := createElementDiv_ok_of_token toLowerCase element hne hws
  refine ⟨elementDiv, ?_, ?_⟩
  · unfold placeElement
    rw [hpos]
    have hrange : 0 ≤ (i : Int) ∧ (i : Int) < (cells.length : Int) := by omega
    simp only [hcreate, if_pos hrange, Int.toNat_ofNat]
  · rw [List.countP_set _ _ _ _ hi]
    have hget : cells[i] = GridCell.emptyCell := by
      have := List.getElem?_eq_getElem hi
      rw [this] at hempty
      exact Option.some.inj hempty
    simp [hget, GridCell.isElement]

/-- Records with valid categories that resolve to pairwise different indices,
each pointing at a child that is still empty, are all placed: the loop ends
without an exception, keeps the number of children and adds one element cell
per record. -/
theorem placeAll_counts (toLowerCase : JSString → JSString)
    (elementsData : List ElementRecord) :
    ∀ cells : List GridCell,
      (∀ element ∈ elementsData,
        (element.category ≠ [] ∧ element.category.any isAsciiWhitespace = false) ∧
          ∃ i : Nat,
            calculateGridPosition element.position.period element.position.group =
                some (i : Int) ∧
              i < cells.length ∧ cells[i]? = some GridCell.emptyCell) →
      (gridIndices elementsData).Nodup →
      (placeAll toLowerCase elementsData cells).error = none ∧
        (placeAll toLowerCase elementsData cells).children.length = cells.length ∧
        (placeAll toLowerCase elementsData cells).children.countP GridCell.isElement =
          cells.countP GridCell.isElement + elementsData.length := by
  induction elementsData with
  | nil =>
    intro cells _ _
    exact ⟨rfl, rfl, rfl⟩
  | cons element rest ih =>
    intro cells hvalid hnodup
    obtain ⟨⟨hne, hws⟩, i, hpos, hi, hempty⟩ := hvalid element (List.mem_cons_self _ _)
    obtain ⟨elementDiv, hplace, hcount⟩ :=
      placeElement_on_empty toLowerCase cells element i hne hws hpos hi hempty
    have hnodup' : calculateGridPosition element.position.period element.position.group ∉
        gridIndices rest ∧ (gridIndices rest).Nodup := by
      simpa [gridIndices] using hnodup
    have hstep : placeAll toLowerCase (element :: rest) cells =
        placeAll toLowerCase rest (cells.set i (GridCell.elementCell elementDiv)) := by
      simp only [placeAll, hplace]
    have hrest := ih (cells.set i (GridCell.elementCell elementDiv)) ?_ hnodup'.2
    · rw [hstep]
      obtain ⟨herror, hlength, hcountRest⟩ := hrest
      refine ⟨herror, ?_, ?_⟩
      · rw [hlength, List.length_set]
      · rw [hcountRest, hcount, List.length_cons]
        omega
    · intro other hother
      obtain ⟨htoken, j, hposj, hj, hemptyj⟩ := hvalid other (List.mem_cons_of_mem _ hother)
      refine ⟨htoken, j, hposj, ?_, ?_⟩
      · rw [List.length_set]
        exact hj
      · have hij : i ≠ j := by
          intro hij
          apply hnodup'.1
          rw [hpos, hij, ← hposj]
          exact List.mem_map_of_mem _ hother
        rw [List.getElem?_set_ne hij]
        exact hemptyj

/-- C7: for every catalog of M element records of the data model (period in
1..9, group in 1..18, category a class token: non-empty, without white space)
in which no two records resolve to the same grid index, and for every case
mapping, `createPeriodicTable` returns without an exception and leaves a grid
of exactly 180 cells, of which exactly M are element cells and exactly 180-M
are empty cells. -/
theorem createPeriodicTable_cell_counts (toLowerCase : JSString → JSString)
    (elementsData : List ElementRecord)
    (hmodel : ∀ element ∈ elementsData,
      (1 ≤ element.position.period ∧ element.position.period ≤ 9) ∧
        (1 ≤ element.position.group ∧ element.position.group ≤ 18) ∧
        element.category ≠ [] ∧ element.category.any isAsciiWhitespace = false)
    (hnodup : (gridIndices elementsData).Nodup) :
    (createPeriodicTable toLowerCase elementsData).error = none ∧
      (createPeriodicTable toLowerCase elementsData).children.length = 180 ∧
      (createPeriodicTable toLowerCase elementsData).children.countP GridCell.isElement =
        elementsData.length ∧
      (createPeriodicTable toLowerCase elementsData).children.countP GridCell.isEmpty =
        180 - elementsData.length := by
  have hall := placeAll_counts toLowerCase elementsData
    (List.replicate totalCells GridCell.emptyCell) ?_ hnodup
  · obtain ⟨herror, hlength, hcount⟩ := hall
    rw [List.length_replicate] at hlength
    rw [List.countP_replicate] at hcount
    simp only [GridCell.isElement, Bool.false_eq_true, if_false, Nat.zero_add] at hcount
    have hsum := countP_isElement_add_isEmpty
      (createPeriodicTable toLowerCase elementsData).children
    have htotal : totalCells = 180 := rfl
    unfold createPeriodicTable at *
    exact ⟨herror, by omega, hcount, by omega⟩
  · intro element helement
    obtain ⟨hp, hg, hne, hws⟩ := hmodel element helement
    obtain ⟨index, hpos, h0, h180⟩ :=
      calculateGridPosition_in_grid element.position.period element.position.group hp hg
    refine ⟨⟨hne, hws⟩, index.toNat, ?_, ?_, ?_⟩
    · rw [hpos, Int.toNat_of_nonneg h0]
    · rw [List.length_replicate]
      unfold totalCells
      omega
    · rw [List.getElem?_replicate]
      have : index.toNat < totalCells := by
        unfold totalCells
        omega
      simp [this]

set_option maxRecDepth 100000 in
theorem createPeriodicTable_cell_counts_witness :
    (∀ element ∈ breakoutCatalog,
        (1 ≤ element.position.period ∧ element.position.period ≤ 9) ∧
          (1 ≤ element.position.group ∧ element.position.group ≤ 18) ∧
          element.category ≠ [] ∧ element.category.any isAsciiWhitespace = false) ∧
      (gridIndices breakoutCatalog).Nodup ∧
      ((createPeriodicTable asciiToLowerCase breakoutCatalog).error = none ∧
        (createPeriodicTable asciiToLowerCase breakoutCatalog).children.length = 180 ∧
        (createPeriodicTable asciiToLowerCase breakoutCatalog).children.countP
            GridCell.isElement = breakoutCatalog.length ∧
        (createPeriodicTable asciiToLowerCase breakoutCatalog).children.countP
            GridCell.isEmpty = 180 - breakoutCatalog.length) ∧
      breakoutCatalog.length = 5 ∧
      (createPeriodicTable asciiToLowerCase breakoutCatalog).children.countP
          GridCell.isElement = 5 ∧
      gridIndices breakoutCatalog = [some 0, some 17, some 35, some 129, some 147] ∧
      (createPeriodicTable asciiToLowerCase emptyCategoryCatalog).error =
        some DOMError.syntaxError ∧
      (createPeriodicTable asciiToLowerCase emptyCategoryCatalog).children.countP
          GridCell.isElement = 1 ∧
      (createPeriodicTable asciiToLowerCase spacedCategoryCatalog).error =
        some DOMError.invalidCharacterError ∧
      (createPeriodicTable asciiToLowerCase spacedCategoryCatalog).children.countP
          GridCell.isElement = 1 ∧
      (initialPage asciiToLowerCase emptyCategoryCatalog).allElements = [] ∧
      (initialPage asciiToLowerCase emptyCategoryCatalog).listenersBound = false :=
  ⟨by decide, by decide,
    createPeriodicTable_cell_counts asciiToLowerCase breakoutCatalog (by decide) (by decide),
    by decide, by decide, by decide, by decide, by decide, by decide, by decide, by decide,
    by decide⟩

end PeriodicTable
